import Mathlib

/-!
Verification of `src/sgmdata/plots/callbacks/eemscan/reset_2.x.x.js`.

The callback resets four shared data containers (the XRF plot source
`xrf.data`, the XAS plot source `xas.data`, the selection rectangle
`sel.data` and the fluorescence peak marker `fluo.data`), emits one
change notification per container, and sets two widget fields.

We embed the callback as a list of primitive steps (one per source
line), run by an interpreter that also records, at each notification,
the state in which the notification fires.  A second, dictionary-based
model (`resetM`) makes the field accesses fallible, to reason about the
precondition that the baseline fields are present.
-/

/-- The containers on which the callback can emit a change notification
(`fluo.change.emit()` and friends); `det` and `alter` are included so
that the absence of a widget notification is expressible. -/
inductive Ev where
  | fluo
  | sel
  | xas
  | xrf
  | det
  | alter
deriving DecidableEq, Repr

/-- `xrf.data` (called `d2` in the source): current fields `proj_x`,
`emission` and baseline fields `proj_x_tot`, `emission_tot`. -/
structure XrfData where
  proj_x : List Int
  emission : List Int
  proj_x_tot : List Int
  emission_tot : List Int
deriving DecidableEq, Repr

/-- `xas.data` (called `d3` in the source): current fields `en`,
`proj_y` and baseline fields `en_tot`, `proj_y_tot`. -/
structure XasData where
  en : List Int
  proj_y : List Int
  en_tot : List Int
  proj_y_tot : List Int
deriving DecidableEq, Repr

/-- `sel.data` / `fluo.data` (called `rect` / `peak` in the source):
rectangle-set overlays with fields `x`, `y`, `width`, `height`. -/
structure RectData where
  x : List Int
  y : List Int
  width : List Int
  height : List Int
deriving DecidableEq, Repr

/-- The detector multi-select widget `det`; the source assigns
`det.active = [0]`. -/
structure DetWidget where
  active : List Int
deriving DecidableEq, Repr

/-- The toggle widget `alter`; the source assigns `alter.active = 2`. -/
structure AlterWidget where
  active : Int
deriving DecidableEq, Repr

/-- The whole mutable state the callback touches: the four data
containers and the two widgets. -/
structure SysState where
  xrf : XrfData
  xas : XasData
  sel : RectData
  fluo : RectData
  det : DetWidget
  alter : AlterWidget
deriving DecidableEq, Repr

/-- A primitive step of the callback: either a state mutation (one
assignment line of the source) or a change notification on one of the
containers. -/
inductive Step where
  | mut (f : SysState → SysState)
  | emit (e : Ev)

/-- The callback body, one step per executable line of
`reset_2.x.x.js`, in source order. -/
def resetProgram : List Step :=
  [ Step.mut (fun s => { s with sel := { s.sel with x := [] } }),
    Step.mut (fun s => { s with sel := { s.sel with y := [] } }),
    Step.mut (fun s => { s with sel := { s.sel with width := [] } }),
    Step.mut (fun s => { s with sel := { s.sel with height := [] } }),
    Step.mut (fun s => { s with xrf := { s.xrf with proj_x := s.xrf.proj_x_tot } }),
    Step.mut (fun s => { s with xrf := { s.xrf with emission := s.xrf.emission_tot } }),
    Step.mut (fun s => { s with xas := { s.xas with en := s.xas.en_tot } }),
    Step.mut (fun s => { s with xas := { s.xas with proj_y := s.xas.proj_y_tot } }),
    Step.mut (fun s => { s with fluo := { s.fluo with x := [] } }),
    Step.mut (fun s => { s with fluo := { s.fluo with y := [] } }),
    Step.mut (fun s => { s with fluo := { s.fluo with width := [] } }),
    Step.mut (fun s => { s with fluo := { s.fluo with height := [] } }),
    Step.emit Ev.fluo,
    Step.emit Ev.sel,
    Step.emit Ev.xas,
    Step.emit Ev.xrf,
    Step.mut (fun s => { s with det := { active := [0] } }),
    Step.mut (fun s => { s with alter := { active := 2 } }) ]

/-- Run a step list from a state; return the final state and, for each
notification emitted, the event together with the state in which it
fired, in emission order. -/
def run (s : SysState) : List Step → SysState × List (Ev × SysState)
  | [] => (s, [])
  | Step.mut f :: rest => run (f s) rest
  | Step.emit e :: rest =>
      let r := run s rest
      (r.1, (e, s) :: r.2)

/-- The final state after the reset callback. -/
def reset (s : SysState) : SysState := (run s resetProgram).1

/-- The sequence of change notifications the callback emits. -/
def resetTrace (s : SysState) : List Ev :=
  ((run s resetProgram).2).map Prod.fst

/-- For each emitted notification, the state in which it fired. -/
def resetSnapshots (s : SysState) : List SysState :=
  ((run s resetProgram).2).map Prod.snd

/-! ### Dictionary-based model for the precondition claim

In the source, `d2['proj_x_tot']` is a key access on a plain mapping;
the spec treats the absence of a baseline key as a fatal/undefined
condition.  `resetM` makes the four baseline reads fallible. -/

/-- A data container as a key-value mapping from field name to a
numeric sequence; later bindings shadow earlier ones. -/
def Dict : Type := List (String × List Int)

instance : DecidableEq Dict := by
  unfold Dict
  infer_instance

/-- Read a field of a container; `none` models the fatal missing-key
condition. -/
def dget (d : Dict) (k : String) : Option (List Int) :=
  d.lookup k

/-- Assign a field of a container. -/
def dset (d : Dict) (k : String) (v : List Int) : Dict :=
  (k, v) :: d

/-- The state of the dictionary-based model: the four containers as
mappings, plus the two widget fields. -/
structure MState where
  xrfData : Dict
  xasData : Dict
  selData : Dict
  fluoData : Dict
  detActive : List Int
  alterActive : Int
deriving DecidableEq

/-- The reset callback over the dictionary model, in source order:
clear the four `rect` fields, restore `d2` and `d3` from their baseline
fields (failing if a baseline key is missing), clear the four `peak`
fields, emit the four notifications and set the two widget fields. -/
def resetM (st : MState) : Option (MState × List Ev) := do
  let rect := dset (dset (dset (dset st.selData "x" []) "y" []) "width" []) "height" []
  let pxt ← dget st.xrfData "proj_x_tot"
  let d2 := dset st.xrfData "proj_x" pxt
  let emt ← dget d2 "emission_tot"
  let d2 := dset d2 "emission" emt
  let ent ← dget st.xasData "en_tot"
  let d3 := dset st.xasData "en" ent
  let pyt ← dget d3 "proj_y_tot"
  let d3 := dset d3 "proj_y" pyt
  let peak := dset (dset (dset (dset st.fluoData "x" []) "y" []) "width" []) "height" []
  pure ({ xrfData := d2, xasData := d3, selData := rect, fluoData := peak,
          detActive := [0], alterActive := 2 },
        [Ev.fluo, Ev.sel, Ev.xas, Ev.xrf])

/-! ### Sample states for witnesses -/

/-- A sample state, taken from the example scenario of the spec. -/
def sampleState : SysState :=
  { xrf := { proj_x := [1, 2], emission := [3, 4],
             proj_x_tot := [0, 0, 0], emission_tot := [9, 9, 9] },
    xas := { en := [5], proj_y := [6], en_tot := [7, 7], proj_y_tot := [8, 8] },
    sel := { x := [1], y := [2], width := [3], height := [4] },
    fluo := { x := [10], y := [11], width := [12], height := [13] },
    det := { active := [3] },
    alter := { active := 0 } }

/-- A second sample state agreeing with `sampleState` on the four
baseline fields but differing everywhere else. -/
def sampleState2 : SysState :=
  { xrf := { proj_x := [42], emission := [43],
             proj_x_tot := [0, 0, 0], emission_tot := [9, 9, 9] },
    xas := { en := [44], proj_y := [45], en_tot := [7, 7], proj_y_tot := [8, 8] },
    sel := { x := [], y := [], width := [], height := [] },
    fluo := { x := [1, 2, 3], y := [4, 5, 6], width := [7], height := [8] },
    det := { active := [0, 1] },
    alter := { active := 7 } }

/-- The state in which each of the four notifications fires when the
callback runs from `sampleState`. -/
def sampleSnap : SysState :=
  { xrf := { proj_x := [0, 0, 0], emission := [9, 9, 9],
             proj_x_tot := [0, 0, 0], emission_tot := [9, 9, 9] },
    xas := { en := [7, 7], proj_y := [8, 8], en_tot := [7, 7], proj_y_tot := [8, 8] },
    sel := { x := [], y := [], width := [], height := [] },
    fluo := { x := [], y := [], width := [], height := [] },
    det := { active := [3] },
    alter := { active := 0 } }

/-- A sample dictionary-model state containing all baseline keys. -/
def sampleMState : MState :=
  { xrfData := [("proj_x", [1, 2]), ("emission", [3, 4]),
                ("proj_x_tot", [0, 0, 0]), ("emission_tot", [9, 9, 9])],
    xasData := [("en", [5]), ("proj_y", [6]), ("en_tot", [7, 7]), ("proj_y_tot", [8, 8])],
    selData := [("x", [1]), ("y", [2]), ("width", [3]), ("height", [4])],
    fluoData := [("x", [10]), ("y", [11]), ("width", [12]), ("height", [13])],
    detActive := [3],
    alterActive := 0 }

/-! ### Claim theorems -/

/-- Claim C1: after reset the current fields equal the baseline fields,
with the same length and element values, for any initial state. -/
theorem reset_restores_baselines (s : SysState) :
    (reset s).xrf.proj_x = (reset s).xrf.proj_x_tot ∧
    (reset s).xrf.emission = (reset s).xrf.emission_tot ∧
    (reset s).xas.en = (reset s).xas.en_tot ∧
    (reset s).xas.proj_y = (reset s).xas.proj_y_tot ∧
    (reset s).xrf.proj_x.length = (reset s).xrf.proj_x_tot.length ∧
    (reset s).xrf.emission.length = (reset s).xrf.emission_tot.length ∧
    (reset s).xas.en.length = (reset s).xas.en_tot.length ∧
    (reset s).xas.proj_y.length = (reset s).xas.proj_y_tot.length := by
  simp [reset, resetProgram, run]

/-- Claim C2: every invocation emits exactly the notification sequence
peak marker (`fluo`), selection (`sel`), `xas`, `xrf`: each container
exactly once, in that order, and nothing else. -/
theorem reset_trace_exact (s : SysState) :
    resetTrace s = [Ev.fluo, Ev.sel, Ev.xas, Ev.xrf] := by
  simp [resetTrace, resetProgram, run]

/-- Claim C3: after reset all eight overlay fields of the selection and
peak-marker containers are empty, whatever they held before. -/
theorem reset_clears_overlays (s : SysState) :
    (reset s).sel.x = [] ∧ (reset s).sel.y = [] ∧
    (reset s).sel.width = [] ∧ (reset s).sel.height = [] ∧
    (reset s).fluo.x = [] ∧ (reset s).fluo.y = [] ∧
    (reset s).fluo.width = [] ∧ (reset s).fluo.height = [] := by
  simp [reset, resetProgram, run]

/-- Claim C4: reset is idempotent: running the callback twice leaves
the same final state as running it once. -/
theorem reset_idempotent (s : SysState) :
    reset (reset s) = reset s := by
  simp [reset, resetProgram, run]

/-- Claim C5: reset never mutates the baseline fields; after the call
they hold exactly their previous values. -/
theorem reset_preserves_baselines (s : SysState) :
    (reset s).xrf.proj_x_tot = s.xrf.proj_x_tot ∧
    (reset s).xrf.emission_tot = s.xrf.emission_tot ∧
    (reset s).xas.en_tot = s.xas.en_tot ∧
    (reset s).xas.proj_y_tot = s.xas.proj_y_tot := by
  simp [reset, resetProgram, run]

/-- Claim C6: after reset the detector widget's `active` field is `[0]`
and the toggle widget's `active` field is `2`, for any prior values. -/
theorem reset_sets_widgets (s : SysState) :
    (reset s).det.active = [0] ∧ (reset s).alter.active = 2 := by
  simp [reset, resetProgram, run]

/-- Claim C7: when the four baseline fields are present, the callback
raises no error and completes all seven effects: current fields
restored from baselines, all eight overlay fields cleared, the four
notifications emitted in order, and the two widget fields set. -/
theorem resetM_total_effects (st : MState) (a b c d : List Int)
    (h1 : dget st.xrfData "proj_x_tot" = some a)
    (h2 : dget st.xrfData "emission_tot" = some b)
    (h3 : dget st.xasData "en_tot" = some c)
    (h4 : dget st.xasData "proj_y_tot" = some d) :
    ∃ st2, resetM st = some (st2, [Ev.fluo, Ev.sel, Ev.xas, Ev.xrf]) ∧
      dget st2.xrfData "proj_x" = some a ∧
      dget st2.xrfData "emission" = some b ∧
      dget st2.xasData "en" = some c ∧
      dget st2.xasData "proj_y" = some d ∧
      dget st2.selData "x" = some [] ∧ dget st2.selData "y" = some [] ∧
      dget st2.selData "width" = some [] ∧ dget st2.selData "height" = some [] ∧
      dget st2.fluoData "x" = some [] ∧ dget st2.fluoData "y" = some [] ∧
      dget st2.fluoData "width" = some [] ∧ dget st2.fluoData "height" = some [] ∧
      st2.detActive = [0] ∧ st2.alterActive = 2 := by
  have h2' : dget (dset st.xrfData "proj_x" a) "emission_tot" = some b := by
    simpa [dget, dset, List.lookup] using h2
  have h4' : dget (dset st.xasData "en" c) "proj_y_tot" = some d := by
    simpa [dget, dset, List.lookup] using h4
  refine ⟨{ xrfData := dset (dset st.xrfData "proj_x" a) "emission" b,
            xasData := dset (dset st.xasData "en" c) "proj_y" d,
            selData := dset (dset (dset (dset st.selData "x" []) "y" []) "width" []) "height" [],
            fluoData := dset (dset (dset (dset st.fluoData "x" []) "y" []) "width" []) "height" [],
            detActive := [0], alterActive := 2 }, ?_, ?_⟩
  · simp [resetM, h1, h2', h3, h4']
  · simp [dget, dset, List.lookup]

/-- Witness for C7 at `sampleMState`. -/
theorem resetM_total_effects_witness :
    ∃ st2, resetM sampleMState = some (st2, [Ev.fluo, Ev.sel, Ev.xas, Ev.xrf]) ∧
      dget st2.xrfData "proj_x" = some [0, 0, 0] ∧
      dget st2.xrfData "emission" = some [9, 9, 9] ∧
      dget st2.xasData "en" = some [7, 7] ∧
      dget st2.xasData "proj_y" = some [8, 8] ∧
      dget st2.selData "x" = some [] ∧ dget st2.selData "y" = some [] ∧
      dget st2.selData "width" = some [] ∧ dget st2.selData "height" = some [] ∧
      dget st2.fluoData "x" = some [] ∧ dget st2.fluoData "y" = some [] ∧
      dget st2.fluoData "width" = some [] ∧ dget st2.fluoData "height" = some [] ∧
      st2.detActive = [0] ∧ st2.alterActive = 2 :=
  resetM_total_effects sampleMState [0, 0, 0] [9, 9, 9] [7, 7] [8, 8]
    (by decide) (by decide) (by decide) (by decide)

/-- Claim C8: the final state and the notification trace depend only on
the four baseline fields: two input states that agree on them yield
identical final states and identical traces. -/
theorem reset_depends_only_on_baselines (s1 s2 : SysState)
    (h1 : s1.xrf.proj_x_tot = s2.xrf.proj_x_tot)
    (h2 : s1.xrf.emission_tot = s2.xrf.emission_tot)
    (h3 : s1.xas.en_tot = s2.xas.en_tot)
    (h4 : s1.xas.proj_y_tot = s2.xas.proj_y_tot) :
    reset s1 = reset s2 ∧ resetTrace s1 = resetTrace s2 := by
  constructor
  · simp [reset, resetProgram, run, h1, h2, h3, h4]
  · simp [resetTrace, resetProgram, run]

/-- Witness for C8: `sampleState` and `sampleState2` agree only on the
baseline fields yet reset to the same state and trace. -/
theorem reset_depends_only_on_baselines_witness :
    (sampleState.xrf.proj_x_tot = sampleState2.xrf.proj_x_tot ∧
     sampleState.xrf.emission_tot = sampleState2.xrf.emission_tot ∧
     sampleState.xas.en_tot = sampleState2.xas.en_tot ∧
     sampleState.xas.proj_y_tot = sampleState2.xas.proj_y_tot) ∧
    reset sampleState = reset sampleState2 ∧
    resetTrace sampleState = resetTrace sampleState2 :=
  ⟨⟨rfl, rfl, rfl, rfl⟩,
   reset_depends_only_on_baselines sampleState sampleState2 rfl rfl rfl rfl⟩

/-- Claim C9: all container mutations happen before the first
notification: in the state in which each notification fires, every
container already holds its final post-reset value. -/
theorem reset_snapshots_final (s : SysState) :
    ∀ snap ∈ resetSnapshots s,
      snap.xrf = (reset s).xrf ∧ snap.xas = (reset s).xas ∧
      snap.sel = (reset s).sel ∧ snap.fluo = (reset s).fluo := by
  intro snap hsnap
  simp [resetSnapshots, resetProgram, run] at hsnap
  subst hsnap
  simp [reset, resetProgram, run]

/-- Witness for C9: the snapshot at which the notifications fire from
`sampleState` already shows the fully reset containers. -/
theorem reset_snapshots_final_witness :
    sampleSnap ∈ resetSnapshots sampleState ∧
      (sampleSnap.xrf = (reset sampleState).xrf ∧
       sampleSnap.xas = (reset sampleState).xas ∧
       sampleSnap.sel = (reset sampleState).sel ∧
       sampleSnap.fluo = (reset sampleState).fluo) :=
  ⟨by decide, reset_snapshots_final sampleState sampleSnap (by decide)⟩

/-- Claim C10: no notification is emitted on either widget; the widgets
only have their `active` fields assigned, to `[0]` and `2`. -/
theorem reset_no_widget_notifications (s : SysState) :
    (resetTrace s).count Ev.det = 0 ∧
    (resetTrace s).count Ev.alter = 0 ∧
    (reset s).det = { active := [0] } ∧
    (reset s).alter = { active := 2 } := by
  simp [resetTrace, reset, resetProgram, run]
